/-
Verification of the resilient collection and chapter-resolution engine of
the haruneko python client scripts.

The development shallowly embeds the python code of
  src/python_client/collect_chapter_patterns.py
  src/python_client/test_mangalek.py
  src/python_client/test_pattern.py
into Lean.  Network effects are made explicit: a run of a retrying request
executor is driven by a plan (the outcome each attempt of `request_func`
would produce), and a crawl is driven by the list of page results each
successive `search_all_manga` call would yield.  Delays passed to
`time.sleep` are recorded in a list instead of being performed.  Python
floats for delays and chapter numbers are modelled as rationals (ℚ); the
delay arithmetic of the code only doubles, and chapter numbers come from
short decimal literals, so the embedding is exact on everything the code
does with them.
-/
import Mathlib

namespace Haruneko

/-- Failures that `request_func` can raise, as distinguished by the python
`except` clauses: `requests.HTTPError` with a response carrying a status
code, `requests.HTTPError` whose `e.response is None`,
`requests.ConnectionError`, `requests.Timeout`, and any other exception. -/
inductive Failure where
  | http (status : Nat)
  | httpNoResponse
  | connection
  | timeout
  | otherExc
deriving DecidableEq, Repr

/-- Classification used by `ChapterPatternCollector._request_with_retry`
(collect_chapter_patterns.py, lines 28-46): an `HTTPError` is retried when
`e.response is not None and e.response.status_code in [429, 500, 502, 503,
504]`; `ConnectionError` and `Timeout` are retried; everything else is
re-raised at once. -/
def retryableC : Failure → Bool
  | .http s => s = 429 || s = 500 || s = 502 || s = 503 || s = 504
  | .httpNoResponse => false
  | .connection => true
  | .timeout => true
  | .otherExc => false

/-- Classification used by `MangaLekChapterTester._request_with_retry`
(test_mangalek.py, lines 83-99): only an `HTTPError` with
`e.response is not None and e.response.status_code == 429` is retried;
all other failures (including 500/502/503/504, connection errors and
timeouts) are re-raised immediately. -/
def retryableM : Failure → Bool
  | .http s => s = 429
  | _ => false

instance exceptDecEq {ε α : Type} [DecidableEq ε] [DecidableEq α] :
    DecidableEq (Except ε α)
  | .ok a, .ok b =>
    if h : a = b then .isTrue (by rw [h])
    else .isFalse (by intro hc; cases hc; exact h rfl)
  | .ok _, .error _ => .isFalse (by intro hc; cases hc)
  | .error _, .ok _ => .isFalse (by intro hc; cases hc)
  | .error a, .error b =>
    if h : a = b then .isTrue (by rw [h])
    else .isFalse (by intro hc; cases hc; exact h rfl)

/-- Caller-visible outcome of one `_request_with_retry` call together with
the observable effects of the run.  `result = .ok (some v)` models a
normal return of the value `v` produced by `request_func`;
`result = .ok none` models the implicit `return None` reached when the
`for` loop body never runs; `result = .error e` models raising `e`.
`attempts` counts invocations of `request_func`, `sleeps` records the
arguments passed to `time.sleep` in order. -/
structure RunResult (α : Type) where
  result : Except Failure (Option α)
  attempts : Nat
  sleeps : List ℚ
deriving Repr, DecidableEq

/-- The retry loop shared verbatim (up to the `retryable` classification)
by `ChapterPatternCollector._request_with_retry` and
`MangaLekChapterTester._request_with_retry`:

    delay = initial_delay
    last_error = None
    for attempt in range(max_retries):
        try:
            return request_func()
        except <failure> as e:
            if <retryable e>:
                last_error = e
                if attempt < max_retries - 1:
                    time.sleep(delay)
                    delay *= 2
                else:
                    raise
            else:
                raise
    if last_error:
        raise last_error

`remaining` is the number of loop iterations still to run (so the python
guard `attempt < max_retries - 1` is `remaining > 1` here), and `plan`
supplies the outcome of each successive `request_func()` call.  A plan
shorter than the remaining attempts falls through like an ended loop;
every theorem below supplies a plan at least as long as the attempts it
needs, so that artificial case is never exercised. -/
def retryAux (retryable : Failure → Bool) :
    Nat → List (Except Failure α) → ℚ → Option Failure → RunResult α
  | 0, _, _, last =>
    ⟨match last with | some e => .error e | none => .ok none, 0, []⟩
  | _ + 1, [], _, last =>
    ⟨match last with | some e => .error e | none => .ok none, 0, []⟩
  | n + 1, o :: rest, delay, _last =>
    match o with
    | .ok v => ⟨.ok (some v), 1, []⟩
    | .error e =>
      if retryable e then
        if n = 0 then ⟨.error e, 1, []⟩
        else
          let r := retryAux retryable n rest (2 * delay) (some e)
          ⟨r.result, r.attempts + 1, delay :: r.sleeps⟩
      else ⟨.error e, 1, []⟩

/-- The doubling backoff series: the delays `d, 2d, 4d, …` (k terms) that
`time.sleep` receives across k consecutive retried failures, `delay`
starting at `initial_delay` and doubling after each sleep
(`delay *= 2`). -/
def geomSleeps (d : ℚ) : Nat → List ℚ
  | 0 => []
  | k + 1 => d :: geomSleeps (2 * d) k

/-- Embedding of `ChapterPatternCollector._request_with_retry(request_func, max_retries,
initial_delay)`, the call outcomes abstracted into `plan`. -/
def collectRequestWithRetry (plan : List (Except Failure α))
    (max_retries : Nat := 5) (initial_delay : ℚ := 2) : RunResult α :=
  retryAux retryableC max_retries plan initial_delay none

/-- Embedding of `MangaLekChapterTester._request_with_retry(request_func, max_retries,
initial_delay)`, the call outcomes abstracted into `plan`. -/
def mangalekRequestWithRetry (plan : List (Except Failure α))
    (max_retries : Nat := 10) (initial_delay : ℚ := 3) : RunResult α :=
  retryAux retryableM max_retries plan initial_delay none

/-- A searchable work as the crawler sees it: the search endpoint returns
manga dictionaries; identity is the `_id` field, titles are free text. -/
structure Entity where
  id : String
  title : String
deriving DecidableEq, Repr

/-- Why the `while` loop of `MangaLekChapterTester.get_all_manga` stopped:
`target` for a failed `while len(all_manga) < limit` check (or an
exhausted page plan), `emptyPage` for the `if not results: break`,
`shortPage` for the `if len(results) < page_size: break`, and
`fetchError e` for the `except Exception: break`.  The function prints
"No more results found" on `emptyPage` and "Reached last page" on
`shortPage`; those two prints are the only "reached end" signal the code
emits. -/
inductive CrawlExit where
  | target
  | emptyPage
  | shortPage
  | fetchError (e : Failure)
deriving DecidableEq, Repr

/-- State of `get_all_manga` when its loop finishes: the `all_manga`
accumulator, the exit path taken, and the trace of page results each
successful `search_all_manga` call returned, in order. -/
structure CrawlEnd where
  acc : List Entity
  exit : CrawlExit
  fetched : List (List Entity)
deriving DecidableEq, Repr

/-- The `while` loop of `MangaLekChapterTester.get_all_manga`
(test_mangalek.py, lines 140-161):

    while len(all_manga) < limit:
        try:
            results = self.search_all_manga(page=page, size=page_size)
            if not results:
                break
            all_manga.extend(results)
            if len(results) < page_size:
                break
            page += 1
            time.sleep(0.5)
        except Exception as e:
            break

`plan` gives, in order, the outcome of each successive
`search_all_manga` call (page numbers 1, 2, …); an exhausted plan stops
like a failed loop condition and is never exercised by a run that the
real code could perform, since `search_all_manga` always yields an
outcome. -/
def getAllMangaLoop (limit page_size : Nat) :
    List (Except Failure (List Entity)) → List Entity → CrawlEnd
  | plan, acc =>
    if acc.length < limit then
      match plan with
      | [] => ⟨acc, .target, []⟩
      | .error e :: _ => ⟨acc, .fetchError e, []⟩
      | .ok results :: rest =>
        if results.isEmpty then ⟨acc, .emptyPage, [results]⟩
        else
          let acc' := acc ++ results
          if results.length < page_size then ⟨acc', .shortPage, [results]⟩
          else
            let r := getAllMangaLoop limit page_size rest acc'
            ⟨r.acc, r.exit, results :: r.fetched⟩
    else ⟨acc, .target, []⟩

/-- Embedding of `MangaLekChapterTester.get_all_manga(limit)`: runs the loop with
`page_size = 100` from an empty accumulator and returns
`all_manga[:limit]`.  The returned value is only the entity list — the
exit reason and any fetch failure are printed, not returned. -/
def get_all_manga (plan : List (Except Failure (List Entity)))
    (limit : Nat := 1000) : List Entity :=
  (getAllMangaLoop limit 100 plan []).acc.take limit

/-- The "reached end" signal of `get_all_manga`: true exactly when the
run prints "No more results found" or "Reached last page". -/
def getAllMangaReachedEnd (plan : List (Except Failure (List Entity)))
    (limit : Nat := 1000) : Bool :=
  match (getAllMangaLoop limit 100 plan []).exit with
  | .emptyPage => true
  | .shortPage => true
  | _ => false

/-- Embedding of `ChapterPatternCollector.search_manga(query, source)`
(collect_chapter_patterns.py, lines 74-97) reduced to its data flow: the
retried request either yields a parsed JSON payload or raises, and the
`except Exception` handler prints the error and returns `[]`.  A payload
is modelled as either a success-envelope (`{'success': ..., 'data': ...}`
dict), a bare list, or something else (which yields `[]`). -/
inductive SearchPayload where
  | envelope (success : Bool) (data : List Entity)
  | bare (data : List Entity)
  | other
deriving DecidableEq, Repr

/-- Extraction of `search_manga`'s result from a payload:
`if isinstance(data, dict) and data.get('success'): return data.get('data', [])`,
`elif isinstance(data, list): return data`, `return []`. -/
def extractSearchData : SearchPayload → List Entity
  | .envelope true data => data
  | .envelope false _ => []
  | .bare data => data
  | .other => []

/-- Function `search_manga` with the outcome of the (retried) request abstracted:
on any raised failure the handler prints and returns `[]`. -/
def search_manga (outcome : Except Failure SearchPayload) : List Entity :=
  match outcome with
  | .ok payload => extractSearchData payload
  | .error _ => []

/-! Chapter title patterns (test_pattern.py)

The script applies, with `re.search(pattern, title, re.IGNORECASE)`, the
ordered regex list

    r'(?:Chapter|Ch\.?|Episode|Ep\.?)\s*(\d+(?:\.\d+)?)'
    r'^(\d+(?:\.\d+)?)\s*[-:]'
    r'^(\d+(?:\.\d+)?)\s*$'

and converts the captured group with `float(...)`.  The embedding
implements exactly these three patterns over `List Char`.  `\d` and `\s`
are modelled at ASCII (the python `re` module would additionally accept
Unicode digits and spaces; every title and number the scripts handle is
ASCII).  The greedy `\d+` never needs to backtrack below maximal munch
against the continuations appearing here: a shortened digit run leaves a
digit or a `.` as the next character, and none of `\s*` (followed by a
digit), `[-:]`, `$`, or end-of-pattern accepts a digit or a `.` there, so
only the optional fraction group produces a second alternative. -/

/-- Python `\s` at ASCII: space, tab, newline, carriage return, form feed,
vertical tab. -/
def isPySpace (c : Char) : Bool :=
  c = ' ' || c = '\t' || c = '\n' || c = '\r' || c = '\x0c' || c = '\x0b'

/-- The alternatives of `\d+(?:\.\d+)?` at a position, in backtracking
order (greedy: fraction included first), each with the unconsumed rest.
Empty when no digit starts here. -/
def numAlts (cs : List Char) : List (List Char × List Char) :=
  let ds := cs.takeWhile Char.isDigit
  if ds.isEmpty then []
  else
    let rest := cs.drop ds.length
    match rest with
    | '.' :: cs2 =>
      let fs := cs2.takeWhile Char.isDigit
      if fs.isEmpty then [(ds, rest)]
      else [(ds ++ '.' :: fs, cs2.drop fs.length), (ds, rest)]
    | _ => [(ds, rest)]

/-- Case-insensitive literal prefix match: strips `pat` (given lowercase)
off `cs`, comparing via `Char.toLower`. -/
def dropPrefixCI : List Char → List Char → Option (List Char)
  | [], cs => some cs
  | _ :: _, [] => none
  | p :: ps, c :: cs => if c.toLower = p then dropPrefixCI ps cs else none

/-- The alternation `(?:Chapter|Ch\.?|Episode|Ep\.?)` unfolded into
literal alternatives in regex backtracking order (`\.?` greedy, so the
dotted form precedes the bare form). -/
def keywordForms : List (List Char) :=
  ["chapter".data, "ch.".data, "ch".data, "episode".data, "ep.".data,
   "ep".data]

/-- Match of pattern 1 anchored at the current position: a keyword form,
`\s*`, then `\d+(?:\.\d+)?`; yields the captured group. -/
def keywordNumberAt (cs : List Char) : Option (List Char) :=
  keywordForms.findSome? fun kw =>
    match dropPrefixCI kw cs with
    | none => none
    | some rest =>
      match numAlts (rest.dropWhile isPySpace) with
      | [] => none
      | (cap, _) :: _ => some cap

/-- Search with pattern 1 as `re.search` does: try each start position left to right. -/
def searchPattern1 : List Char → Option (List Char)
  | [] => none
  | c :: cs => (keywordNumberAt (c :: cs)).orElse fun _ => searchPattern1 cs

/-- Search with the anchored pattern 2, `^(\d+(?:\.\d+)?)\s*[-:]`. -/
def matchPattern2 (cs : List Char) : Option (List Char) :=
  (numAlts cs).findSome? fun alt =>
    match (alt.2).dropWhile isPySpace with
    | '-' :: _ => some alt.1
    | ':' :: _ => some alt.1
    | _ => none

/-- Search with the anchored pattern 3, `^(\d+(?:\.\d+)?)\s*$`. -/
def matchPattern3 (cs : List Char) : Option (List Char) :=
  (numAlts cs).findSome? fun alt =>
    if ((alt.2).dropWhile isPySpace).isEmpty then some alt.1 else none

/-- Value of `float(match.group(1))` for the captures produced here: the
group is always `digits` or `digits.digits`, so the float is the exact
decimal `mantissa / 10 ^ scale`.  Equality of such decimals is modelled
exactly; `float64` rounding could only merge decimals that differ beyond
the fifteenth significant digit, which the scripts never produce. -/
structure Decimal where
  mantissa : Nat
  scale : Nat
deriving DecidableEq, Repr

/-- Numeric value of a digit string, as `float`/`int` parsing reads it
(leading zeros collapse: "001" ↦ 1). -/
def digitsVal (ds : List Char) : Nat :=
  ds.foldl (fun n c => 10 * n + (c.toNat - '0'.toNat)) 0

/-- Value of `float(group)` on a capture `digits` or `digits.digits`. -/
def floatOfGroup (cap : List Char) : Decimal :=
  let intPart := cap.takeWhile Char.isDigit
  match cap.drop intPart.length with
  | '.' :: fs => ⟨digitsVal (intPart ++ fs), fs.length⟩
  | _ => ⟨digitsVal intPart, 0⟩

/-- The rational value of a parsed float. -/
def Decimal.toRat (d : Decimal) : ℚ :=
  (d.mantissa : ℚ) / (10 : ℚ) ^ d.scale

/-- Python `==` between two such floats: exact value equality, decided by
cross multiplication. -/
def Decimal.eqv (a b : Decimal) : Bool :=
  a.mantissa * 10 ^ b.scale = b.mantissa * 10 ^ a.scale

/-- The pattern loop of test_pattern.py, lines 25-31: try the patterns in
order, and the first one that matches wins (`break`); no match at all
leaves the title unresolved (`None` rather than a number). -/
def parseChapterNumber (title : String) : Option Decimal :=
  match searchPattern1 title.data with
  | some cap => some (floatOfGroup cap)
  | none =>
    match matchPattern2 title.data with
    | some cap => some (floatOfGroup cap)
    | none => (matchPattern3 title.data).map floatOfGroup

/-- One title's test inside the lookup loop of test_pattern.py, lines
45-57: every pattern is tried (the inner loop does not stop at the first
matching pattern), and the title counts as found when some pattern's
extracted number compares `==` to the requested one. -/
def titleMatchesRequested (t : List Char) (req : Decimal) : Bool :=
  [searchPattern1 t, matchPattern2 t, matchPattern3 t].any fun m =>
    match m with
    | some cap => (floatOfGroup cap).eqv req
    | none => false

/-- The chapter lookup loop of test_pattern.py, lines 41-62: walk the
titles in list order and return the first that some pattern matches with
the requested number; `none` models the "NOT FOUND" outcome. -/
def findChapterLoop (titles : List String) (req : Decimal) : Option String :=
  titles.find? fun t => titleMatchesRequested t.data req

/-! The run_test result counters (test_mangalek.py) -/

/-- The `{'id': ..., 'title': ...}` record appended to the error and
failed lists. -/
structure MangaRef where
  id : String
  title : String
deriving DecidableEq, Repr

/-- The `(success, error_reason, chapter_count)` triple returned by
`MangaLekChapterTester.test_manga_chapters`. -/
structure TestOutcome where
  success : Bool
  error_reason : String
  chapter_count : Nat
deriving DecidableEq, Repr

/-- The `self.results` dictionary of `MangaLekChapterTester`:
counters, the per-error-reason `defaultdict(list)`, and the success and
failure record lists. -/
structure Results where
  total : Nat
  success : Nat
  failed : Nat
  zero_chapters : Nat
  errors : List (String × List MangaRef)
  successful_manga : List (MangaRef × Nat)
  failed_manga : List (MangaRef × String)
deriving DecidableEq, Repr

/-- State of `self.results` as initialised in `__init__` (test_mangalek.py, lines
47-55). -/
def initResults : Results := ⟨0, 0, 0, 0, [], [], []⟩

/-- Update `self.results['errors'][error_reason].append({...})`: the
`defaultdict(list)` grows the list under the reason, creating it on first
use. -/
def appendError (errors : List (String × List MangaRef)) (reason : String)
    (m : MangaRef) : List (String × List MangaRef) :=
  match errors with
  | [] => [(reason, [m])]
  | (r, ms) :: rest =>
    if r = reason then (r, ms ++ [m]) :: rest
    else (r, ms) :: appendError rest reason m

/-- The per-manga update of `self.results` in the body of `run_test`
(test_mangalek.py, lines 285-308). -/
def recordResult (res : Results) (m : MangaRef) (o : TestOutcome) : Results :=
  let res := { res with total := res.total + 1 }
  if o.success then
    { res with
        success := res.success + 1
        successful_manga := res.successful_manga ++ [(m, o.chapter_count)] }
  else
    let res := { res with failed := res.failed + 1 }
    let res :=
      if o.error_reason = "Zero chapters returned" then
        { res with zero_chapters := res.zero_chapters + 1 }
      else res
    { res with
        errors := appendError res.errors o.error_reason m
        failed_manga := res.failed_manga ++ [(m, o.error_reason)] }

/-- Loop of `run_test` over the fetched manga, folding the per-manga
update over the sequence of test outcomes. -/
def runTestResults (tests : List (MangaRef × TestOutcome)) : Results :=
  tests.foldl (fun r p => recordResult r p.1 p.2) initResults

/-- Total number of entries across all per-error lists of the
`defaultdict`. -/
def errorEntryCount (errors : List (String × List MangaRef)) : Nat :=
  (errors.map fun p => p.2.length).sum

/-! Lemmas about the retry loop -/

theorem retryAux_zero (r : Failure → Bool) (plan : List (Except Failure α))
    (d : ℚ) : retryAux r 0 plan d none = ⟨.ok none, 0, []⟩ := rfl

theorem retryAux_ok (r : Failure → Bool) (n : Nat) (v : α)
    (rest : List (Except Failure α)) (d : ℚ) (last : Option Failure) :
    retryAux r (n + 1) (.ok v :: rest) d last = ⟨.ok (some v), 1, []⟩ := rfl

theorem retryAux_terminal (r : Failure → Bool) (n : Nat) (e : Failure)
    (rest : List (Except Failure α)) (d : ℚ) (last : Option Failure)
    (h : r e = false) :
    retryAux r (n + 1) (.error e :: rest) d last = ⟨.error e, 1, []⟩ := by
  simp [retryAux, h]

theorem retryAux_lastAttempt (r : Failure → Bool) (e : Failure)
    (rest : List (Except Failure α)) (d : ℚ) (last : Option Failure)
    (h : r e = true) :
    retryAux r 1 (.error e :: rest) d last = ⟨.error e, 1, []⟩ := by
  simp [retryAux, h]

theorem retryAux_step (r : Failure → Bool) (n : Nat) (e : Failure)
    (rest : List (Except Failure α)) (d : ℚ) (last : Option Failure)
    (h : r e = true) (hn : n ≠ 0) :
    retryAux r (n + 1) (.error e :: rest) d last =
      ⟨(retryAux r n rest (2 * d) (some e)).result,
       (retryAux r n rest (2 * d) (some e)).attempts + 1,
       d :: (retryAux r n rest (2 * d) (some e)).sleeps⟩ := by
  simp [retryAux, h, hn]

theorem retryAux_success (r : Failure → Bool) :
    ∀ (es : List Failure) (v : α) (rest : List (Except Failure α)) (d : ℚ)
      (last : Option Failure) (mr : Nat),
      es.length < mr → (∀ e ∈ es, r e = true) →
      retryAux r mr (es.map .error ++ .ok v :: rest) d last =
        ⟨.ok (some v), es.length + 1, geomSleeps d es.length⟩
  | [], v, rest, d, last, mr, hlt, _ => by
    obtain ⟨n, rfl⟩ : ∃ n, mr = n + 1 := ⟨mr - 1, by omega⟩
    simp [retryAux_ok, geomSleeps]
  | e :: es, v, rest, d, last, mr, hlt, hr => by
    obtain ⟨n, rfl⟩ : ∃ n, mr = n + 1 := ⟨mr - 1, by omega⟩
    have hn : n ≠ 0 := by simp at hlt; omega
    have he : r e = true := hr e (by simp)
    rw [List.map_cons, List.cons_append, retryAux_step r n e _ d last he hn,
      retryAux_success r es v rest (2 * d) (some e) n (by simp at hlt; omega)
        (fun x hx => hr x (by simp [hx]))]
    simp [geomSleeps]

theorem retryAux_exhaust (r : Failure → Bool) :
    ∀ (es : List Failure) (h : es ≠ []) (rest : List (Except Failure α))
      (d : ℚ) (last : Option Failure),
      (∀ e ∈ es, r e = true) →
      retryAux r es.length (es.map .error ++ rest) d last =
        ⟨.error (es.getLast h), es.length, geomSleeps d (es.length - 1)⟩
  | [], h, _, _, _, _ => absurd rfl h
  | [e], _, rest, d, last, hr => by
    simp [retryAux_lastAttempt r e rest d last (hr e (by simp)), geomSleeps,
      List.getLast]
  | e :: e' :: es, _, rest, d, last, hr => by
    have he : r e = true := hr e (by simp)
    rw [List.map_cons, List.cons_append, List.length_cons,
      retryAux_step r ((e' :: es).length) e _ d last he (by simp),
      retryAux_exhaust r (e' :: es) (by simp) rest (2 * d) (some e)
        (fun x hx => hr x (by simp [hx]))]
    simp [geomSleeps, List.getLast]

theorem retryAux_error_retryable_exhausts (r : Failure → Bool) :
    ∀ (plan : List (Except Failure α)) (mr : Nat) (d : ℚ)
      (last : Option Failure) (e : Failure),
      mr ≤ plan.length → (retryAux r mr plan d last).result = .error e →
      r e = true → (retryAux r mr plan d last).attempts = mr
  | _, 0, _, _, _, _, _, _ => rfl
  | [], n + 1, _, _, _, hlen, _, _ => by simp at hlen
  | .ok v :: rest, n + 1, d, last, e, _, hres, _ => by
    rw [retryAux_ok] at hres; cases hres
  | .error e' :: rest, n + 1, d, last, e, hlen, hres, hret => by
    by_cases he' : r e' = true
    · by_cases hn : n = 0
      · subst hn; rw [retryAux_lastAttempt r e' rest d last he']
      · rw [retryAux_step r n e' rest d last he' hn] at hres ⊢
        simp only at hres ⊢
        rw [retryAux_error_retryable_exhausts r rest n (2 * d) (some e') e
          (by simpa using hlen) hres hret]
    · rw [retryAux_terminal r n e' rest d last (by simpa using he')] at hres ⊢
      cases hres
      exact absurd hret he'

theorem retryAux_no_fallthrough (r : Failure → Bool) :
    ∀ (plan : List (Except Failure α)) (mr : Nat) (d : ℚ)
      (last : Option Failure),
      1 ≤ mr → mr ≤ plan.length →
      (∃ v, (retryAux r mr plan d last).result = .ok (some v)) ∨
        ∃ e, (retryAux r mr plan d last).result = .error e
  | [], mr, _, _, h1, hlen => absurd (Nat.le_trans h1 hlen) (by simp)
  | .ok v :: rest, n + 1, d, last, _, _ => .inl ⟨v, by rw [retryAux_ok]⟩
  | .error e :: rest, n + 1, d, last, _, hlen => by
    by_cases he : r e = true
    · by_cases hn : n = 0
      · exact .inr ⟨e, by subst hn; rw [retryAux_lastAttempt r e rest d last he]⟩
      · rw [retryAux_step r n e rest d last he hn]
        exact retryAux_no_fallthrough r rest n (2 * d) (some e)
          (Nat.one_le_iff_ne_zero.mpr hn) (by simpa using hlen)
    · exact .inr ⟨e, by rw [retryAux_terminal r n e rest d last
        (by simpa using he)]⟩

theorem geomSleeps_sum : ∀ (k : Nat) (d : ℚ),
    (geomSleeps d k).sum = d * (2 ^ k - 1)
  | 0, d => by simp [geomSleeps]
  | k + 1, d => by
    simp only [geomSleeps, List.sum_cons, geomSleeps_sum k (2 * d)]
    ring

/-! Claim theorems: retry executor -/

/-- C1 (counterexample): the claim says an HTTP 500 failure is retryable
and is retried, for the retry executor of test_mangalek.py among its
named sources; but `MangaLekChapterTester._request_with_retry` given an
HTTP 500 failure (with a success available on the next attempt)
propagates it after exactly one call attempt and no sleep, because its
classifier accepts only status 429. -/
theorem mangalek_retries_500_cex :
    mangalekRequestWithRetry [.error (.http 500), .ok 7] 10 3 =
      ⟨.error (.http 500), 1, []⟩ ∧
    retryableM (.http 500) = false ∧ retryableC (.http 500) = true := by
  decide

/-- C1 (amended): each executor retries exactly the failures its own
classifier accepts, and propagates every other failure immediately, with
no sleep and no further call attempt.  The pattern collector's classifier
accepts exactly HTTP 429/500/502/503/504, connection errors and
timeouts; the MangaLek tester's accepts exactly HTTP 429.  Behaviour is
witnessed against a plan whose second attempt would succeed: a retryable
first failure leads to that success after one sleep, a terminal one is
propagated with the success never requested. -/
theorem retry_classification_amended :
    (∀ e : Failure,
      (retryableC e = true ↔
        e = .http 429 ∨ e = .http 500 ∨ e = .http 502 ∨ e = .http 503 ∨
          e = .http 504 ∨ e = .connection ∨ e = .timeout) ∧
      (retryableM e = true ↔ e = .http 429)) ∧
    ∀ (e : Failure) (v : Nat) (rest : List (Except Failure Nat)) (d : ℚ)
      (mr : Nat),
      collectRequestWithRetry (.error e :: .ok v :: rest) (mr + 2) d =
        (if retryableC e then ⟨.ok (some v), 2, [d]⟩ else ⟨.error e, 1, []⟩) ∧
      mangalekRequestWithRetry (.error e :: .ok v :: rest) (mr + 2) d =
        (if retryableM e then ⟨.ok (some v), 2, [d]⟩ else ⟨.error e, 1, []⟩) := by
  constructor
  · intro e
    constructor
    · cases e <;> simp [retryableC, or_assoc]
    · cases e <;> simp [retryableM]
  · intro e v rest d mr
    constructor
    · by_cases he : retryableC e = true
      · rw [if_pos he]
        have := retryAux_success retryableC [e] v rest d none (mr + 2)
          (by simp) (by simpa using he)
        simpa [collectRequestWithRetry, geomSleeps] using this
      · rw [if_neg he]
        exact retryAux_terminal retryableC (mr + 1) e _ d none
          (by simpa using he)
    · by_cases he : retryableM e = true
      · rw [if_pos he]
        have := retryAux_success retryableM [e] v rest d none (mr + 2)
          (by simp) (by simpa using he)
        simpa [mangalekRequestWithRetry, geomSleeps] using this
      · rw [if_neg he]
        exact retryAux_terminal retryableM (mr + 1) e _ d none
          (by simpa using he)

/-- C5: when every attempt fails with a failure its classifier accepts,
each executor performs exactly `max_retries` call attempts, sleeping the
doubling backoff series between them, and then propagates the last
failure.  The propagated failure is distinguishable from a terminal
error: a failure the classifier accepts reaches the caller only by
exhausting all `max_retries` attempts (terminal propagation always hands
back a failure the classifier rejects). -/
theorem retries_exhausted (es : List Failure)
    (rest : List (Except Failure Nat)) (d : ℚ) (h : es ≠ []) :
    ((∀ e ∈ es, retryableC e = true) →
      collectRequestWithRetry (es.map .error ++ rest) es.length d =
        ⟨.error (es.getLast h), es.length, geomSleeps d (es.length - 1)⟩) ∧
    ((∀ e ∈ es, retryableM e = true) →
      mangalekRequestWithRetry (es.map .error ++ rest) es.length d =
        ⟨.error (es.getLast h), es.length, geomSleeps d (es.length - 1)⟩) ∧
    (∀ (plan : List (Except Failure Nat)) (mr : Nat) (e : Failure),
      mr ≤ plan.length →
      (collectRequestWithRetry plan mr d).result = .error e →
      retryableC e = true →
      (collectRequestWithRetry plan mr d).attempts = mr) ∧
    (∀ (plan : List (Except Failure Nat)) (mr : Nat) (e : Failure),
      mr ≤ plan.length →
      (mangalekRequestWithRetry plan mr d).result = .error e →
      retryableM e = true →
      (mangalekRequestWithRetry plan mr d).attempts = mr) :=
  ⟨fun hr => retryAux_exhaust retryableC es h rest d none hr,
   fun hr => retryAux_exhaust retryableM es h rest d none hr,
   fun plan mr e hlen hres hret =>
     retryAux_error_retryable_exhausts retryableC plan mr d none e hlen hres
       hret,
   fun plan mr e hlen hres hret =>
     retryAux_error_retryable_exhausts retryableM plan mr d none e hlen hres
       hret⟩

/-- Witness for C5 at a concrete run: two retryable failures against
`max_retries = 2` make exactly two attempts, one sleep of the initial
delay, and propagate the second failure. -/
theorem retries_exhausted_witness :
    collectRequestWithRetry (α := Nat) [.error .timeout, .error .timeout] 2 2 =
      ⟨.error .timeout, 2, [2]⟩ :=
  (retries_exhausted [.timeout, .timeout] [] 2 (by decide)).1 (by decide)

/-- C6: `k` failures the classifier accepts, followed by a success, with
`k < max_retries`: each executor returns the success after `k + 1`
attempts, the sleeps are the doubling series `d, 2d, 4d, …` of length
`k`, and their total is the geometric sum `d * (2 ^ k - 1)`. -/
theorem backoff_success (es : List Failure) (v : Nat)
    (rest : List (Except Failure Nat)) (d : ℚ) (mr : Nat)
    (hlt : es.length < mr) :
    ((∀ e ∈ es, retryableC e = true) →
      collectRequestWithRetry (es.map .error ++ .ok v :: rest) mr d =
        ⟨.ok (some v), es.length + 1, geomSleeps d es.length⟩) ∧
    ((∀ e ∈ es, retryableM e = true) →
      mangalekRequestWithRetry (es.map .error ++ .ok v :: rest) mr d =
        ⟨.ok (some v), es.length + 1, geomSleeps d es.length⟩) ∧
    (geomSleeps d es.length).sum = d * (2 ^ es.length - 1) :=
  ⟨fun hr => retryAux_success retryableC es v rest d none mr hlt hr,
   fun hr => retryAux_success retryableM es v rest d none mr hlt hr,
   geomSleeps_sum es.length d⟩

/-- Witness for C6 at a concrete run: one 429 failure then a success,
with two attempts allowed, returns the success after one sleep of the
initial delay. -/
theorem backoff_success_witness :
    collectRequestWithRetry [.error (.http 429), .ok 7] 2 3 =
      ⟨.ok (some 7), 2, [3]⟩ :=
  (backoff_success [.http 429] 7 [] 3 2 (by decide)).1 (by decide)

/-- C9: with `max_retries ≥ 1` and a plan covering every attempt, each
`_request_with_retry` either returns the value of a successful
`request_func` call or raises a failure — the fall-through
`raise last_error` line never produces the silent `None`; with
`max_retries = 0` the loop body never runs, no call attempt is made, no
sleep happens, and the function silently returns `None`. -/
theorem retry_returns_or_raises (plan : List (Except Failure Nat)) (mr : Nat)
    (d : ℚ) :
    (1 ≤ mr → mr ≤ plan.length →
      (((∃ v, (collectRequestWithRetry plan mr d).result = .ok (some v)) ∨
        ∃ e, (collectRequestWithRetry plan mr d).result = .error e) ∧
       ((∃ v, (mangalekRequestWithRetry plan mr d).result = .ok (some v)) ∨
        ∃ e, (mangalekRequestWithRetry plan mr d).result = .error e))) ∧
    collectRequestWithRetry plan 0 d = ⟨.ok none, 0, []⟩ ∧
    mangalekRequestWithRetry plan 0 d = ⟨.ok none, 0, []⟩ :=
  ⟨fun h1 hlen =>
    ⟨retryAux_no_fallthrough retryableC plan mr d none h1 hlen,
     retryAux_no_fallthrough retryableM plan mr d none h1 hlen⟩,
   retryAux_zero retryableC plan d, retryAux_zero retryableM plan d⟩

/-- Witness for C9 at a concrete run with one allowed attempt that
succeeds. -/
theorem retry_returns_or_raises_witness :
    ((∃ v, (collectRequestWithRetry [.ok 5] 1 2).result = .ok (some v)) ∨
      ∃ e, (collectRequestWithRetry [.ok 5] 1 2).result = .error e) ∧
    ((∃ v, (mangalekRequestWithRetry [.ok 5] 1 2).result = .ok (some v)) ∨
      ∃ e, (mangalekRequestWithRetry [.ok 5] 1 2).result = .error e) :=
  (retry_returns_or_raises [.ok 5] 1 2).1 (by decide) (by decide)

/-! Lemmas about the pagination crawl -/

theorem getAllMangaLoop_acc_append_error (limit ps : Nat) (e : Failure) :
    ∀ (plan : List (Except Failure (List Entity))) (acc : List Entity),
      (getAllMangaLoop limit ps (plan ++ [.error e]) acc).acc =
        (getAllMangaLoop limit ps plan acc).acc
  | [], acc => by
    by_cases h : acc.length < limit <;> simp [getAllMangaLoop, h]
  | .error e' :: rest, acc => by
    by_cases h : acc.length < limit <;> simp [getAllMangaLoop, h]
  | .ok results :: rest, acc => by
    by_cases h : acc.length < limit
    · by_cases hemp : results.isEmpty
      · simp [getAllMangaLoop, h, hemp]
      · by_cases hshort : results.length < ps
        · simp [getAllMangaLoop, h, hemp, hshort]
        · simp only [getAllMangaLoop, h, hemp, hshort, List.cons_append,
            if_true, if_false, if_neg, if_pos]
          exact getAllMangaLoop_acc_append_error limit ps e rest
            (acc ++ results)
    · simp [getAllMangaLoop, h]

theorem getAllMangaLoop_end_iff (limit ps : Nat) :
    ∀ (plan : List (Except Failure (List Entity))) (acc : List Entity),
      ((getAllMangaLoop limit ps plan acc).exit = .emptyPage ∨
        (getAllMangaLoop limit ps plan acc).exit = .shortPage) ↔
      ∃ p, (getAllMangaLoop limit ps plan acc).fetched.getLast? = some p ∧
        (p = [] ∨ p.length < ps)
  | [], acc => by
    by_cases h : acc.length < limit <;> simp [getAllMangaLoop, h]
  | .error e :: rest, acc => by
    by_cases h : acc.length < limit <;> simp [getAllMangaLoop, h]
  | .ok results :: rest, acc => by
    by_cases h : acc.length < limit
    · by_cases hemp : results.isEmpty
      · simp [getAllMangaLoop, h, hemp,
          List.isEmpty_iff.mp hemp]
      · by_cases hshort : results.length < ps
        · simp [getAllMangaLoop, h, hemp, hshort]
        · simp only [getAllMangaLoop, h, hemp, hshort, if_true, if_false,
            if_neg, if_pos]
          rcases hfr : (getAllMangaLoop limit ps rest (acc ++ results)).fetched
            with _ | ⟨p, ps'⟩
          · have := getAllMangaLoop_end_iff limit ps rest (acc ++ results)
            rw [hfr] at this
            simpa [List.isEmpty_iff.not.mp hemp, hshort] using this
          · have := getAllMangaLoop_end_iff limit ps rest (acc ++ results)
            rw [hfr] at this
            simpa using this
    · simp [getAllMangaLoop, h]

/-! Claim theorems: pagination crawl -/

/-- C2 (counterexample): a page whose two entities share the id "a" is
accepted wholesale by `get_all_manga` — the code has no `seenIds` check —
so the returned sequence holds two entities with the same id,
contradicting the claimed no-duplicates invariant. -/
theorem crawl_duplicates_cex :
    (get_all_manga [.ok [⟨"a", "A"⟩, ⟨"a", "A"⟩]] 10).map Entity.id =
      ["a", "a"] ∧
    ¬ ((get_all_manga [.ok [⟨"a", "A"⟩, ⟨"a", "A"⟩]] 10).map
        Entity.id).Nodup := by
  decide

/-- C2 (amended): for every page plan and target count, the sequence
`get_all_manga` returns never exceeds the target count in length (the
final `all_manga[:limit]` truncation enforces it); no deduplication by
id is performed, so repeated ids within or across pages are preserved. -/
theorem crawl_length_bound (plan : List (Except Failure (List Entity)))
    (limit : Nat) : (get_all_manga plan limit).length ≤ limit := by
  simp only [get_all_manga]
  exact List.length_take_le limit (getAllMangaLoop limit 100 plan []).acc

/-- C3 (counterexample): a crawl whose second page fetch raises a
terminal HTTP 500 returns a value identical to that of a clean crawl
whose second page is simply empty — the failure is printed and swallowed,
not returned — and `search_manga` likewise swallows a raised timeout into
the same `[]` an empty result list produces. -/
theorem crawl_failure_swallowed_cex :
    get_all_manga
        [.ok (List.replicate 100 ⟨"a", "A"⟩), .error (.http 500)] 10 =
      get_all_manga [.ok (List.replicate 100 ⟨"a", "A"⟩), .ok []] 10 ∧
    search_manga (.error .timeout) = [] ∧
    search_manga (.ok (.bare [])) = [] := by
  decide

/-- C3 (amended): a crawl that hits a fetch failure keeps everything
already collected — its return value equals that of the same crawl run
without the failing fetch — but the failure itself is not part of the
return value: `get_all_manga` returns a bare entity list, and
`search_manga` maps every raised failure to `[]`.  The failure is only
printed (logged and swallowed), so no typed failure outcome reaches the
caller. -/
theorem crawl_partial_results (plan : List (Except Failure (List Entity)))
    (e : Failure) (limit : Nat) :
    get_all_manga (plan ++ [.error e]) limit = get_all_manga plan limit ∧
    ∀ e' : Failure, search_manga (.error e') = [] := by
  refine ⟨?_, fun _ => rfl⟩
  simp [get_all_manga, getAllMangaLoop_acc_append_error]

/-- C8: the crawl's "reached end" report (the "No more results found" /
"Reached last page" prints) is true exactly when the last successfully
fetched page was empty or shorter than the page size; a short page's
entities are accepted before stopping; and a crawl stopped by the target
count check reports reached-end false — concretely, a full page that
exactly reaches the target stops the crawl with reached-end false and
without fetching further pages. -/
theorem crawl_reached_end (plan : List (Except Failure (List Entity)))
    (limit : Nat) :
    (getAllMangaReachedEnd plan limit = true ↔
      ∃ p, (getAllMangaLoop limit 100 plan []).fetched.getLast? = some p ∧
        (p = [] ∨ p.length < 100)) ∧
    (∀ (acc results : List Entity) (rest : List (Except Failure (List Entity))),
      acc.length < limit → results ≠ [] → results.length < 100 →
      getAllMangaLoop limit 100 (.ok results :: rest) acc =
        ⟨acc ++ results, .shortPage, [results]⟩) ∧
    ((getAllMangaLoop limit 100 plan []).exit = .target →
      getAllMangaReachedEnd plan limit = false) ∧
    (get_all_manga [.ok (List.replicate 100 ⟨"a", "A"⟩), .ok []] 100).length
        = 100 ∧
    getAllMangaReachedEnd [.ok (List.replicate 100 ⟨"a", "A"⟩), .ok []] 100
        = false := by
  refine ⟨?_, ?_, ?_, by decide, by decide⟩
  · have h := getAllMangaLoop_end_iff limit 100 plan []
    rw [← h]
    unfold getAllMangaReachedEnd
    rcases (getAllMangaLoop limit 100 plan []).exit <;> simp
  · intro acc results rest hacc hne hshort
    simp [getAllMangaLoop, hacc, List.isEmpty_iff.not.mpr hne, hshort]
  · intro h
    unfold getAllMangaReachedEnd
    rw [h]

/-- Witness for C8's short-page conjunct at a concrete input: a
two-entity page against page size 100 is accepted and ends the crawl. -/
theorem crawl_reached_end_witness :
    getAllMangaLoop 10 100 [.ok [⟨"a", "A"⟩, ⟨"b", "B"⟩]] [] =
      ⟨[⟨"a", "A"⟩, ⟨"b", "B"⟩], .shortPage, [[⟨"a", "A"⟩, ⟨"b", "B"⟩]]⟩ :=
  (crawl_reached_end [.ok [⟨"a", "A"⟩, ⟨"b", "B"⟩]] 10).2.1 []
    [⟨"a", "A"⟩, ⟨"b", "B"⟩] [] (by decide) (by decide) (by decide)

/-! Lemmas about the title resolver and lookup -/

theorem find?_first {α : Type} (p : α → Bool) :
    ∀ (l : List α) (a : α), l.find? p = some a →
      p a = true ∧ ∃ pre post, l = pre ++ a :: post ∧
        ∀ x ∈ pre, p x = false
  | [], a, h => by simp at h
  | x :: xs, a, h => by
    by_cases hx : p x = true
    · rw [List.find?_cons_of_pos _ hx] at h
      cases h
      exact ⟨hx, [], xs, rfl, by simp⟩
    · rw [List.find?_cons_of_neg _ (by simpa using hx)] at h
      obtain ⟨hpa, pre, post, rfl, hpre⟩ := find?_first p xs a h
      refine ⟨hpa, x :: pre, post, rfl, ?_⟩
      intro y hy
      rcases List.mem_cons.mp hy with rfl | hy
      · simpa using hx
      · exact hpre y hy

/-! Claim theorems: title resolver and lookup -/

/-- C4: `parseChapterNumber` tries the keyword pattern, then the
leading-number-with-separator pattern, then the bare-number pattern, and
the first matching pattern alone fixes the result; on the spec's four
sample titles it yields 1, 1165, 10.5, and the unresolved outcome
`none`. -/
theorem parse_chapter_number (t : String) :
    (parseChapterNumber "Vol.01 Ch.001 - Romance Dawn").map Decimal.toRat =
      some 1 ∧
    (parseChapterNumber "Vol.98 Ch.1165").map Decimal.toRat = some 1165 ∧
    (parseChapterNumber "10.5: Extra").map Decimal.toRat = some (10.5 : ℚ) ∧
    parseChapterNumber "Random Title With No Number" = none ∧
    (∀ cap, searchPattern1 t.data = some cap →
      parseChapterNumber t = some (floatOfGroup cap)) ∧
    (∀ cap, searchPattern1 t.data = none → matchPattern2 t.data = some cap →
      parseChapterNumber t = some (floatOfGroup cap)) ∧
    (searchPattern1 t.data = none → matchPattern2 t.data = none →
      parseChapterNumber t = (matchPattern3 t.data).map floatOfGroup) := by
  refine ⟨?_, ?_, ?_, by decide, ?_, ?_, ?_⟩
  · have h : parseChapterNumber "Vol.01 Ch.001 - Romance Dawn" =
        some ⟨1, 0⟩ := by decide
    rw [h]
    norm_num [Decimal.toRat]
  · have h : parseChapterNumber "Vol.98 Ch.1165" = some ⟨1165, 0⟩ := by
      decide
    rw [h]
    norm_num [Decimal.toRat]
  · have h : parseChapterNumber "10.5: Extra" = some ⟨105, 1⟩ := by decide
    rw [h]
    norm_num [Decimal.toRat]
  · intro cap h1
    simp [parseChapterNumber, h1]
  · intro cap h1 h2
    simp [parseChapterNumber, h1, h2]
  · intro h1 h2
    simp [parseChapterNumber, h1, h2]

/-- Witness for C4's ordering conjuncts at a concrete title: "Ch.828"
matches the keyword pattern, so the keyword pattern's capture alone
determines the parse. -/
theorem parse_chapter_number_witness :
    parseChapterNumber "Ch.828" = some ⟨828, 0⟩ :=
  (parse_chapter_number "Ch.828").2.2.2.2.1 "828".data (by decide)

/-- C7 (counterexample): on the single-entry list ["5: Ch.3"] and
requested number 5, no entry's resolved number equals 5 — the entry
resolves to 3 via the first (keyword) pattern — yet the lookup loop
returns that entry rather than not-found, because the loop keeps trying
later patterns after a non-equal match and the leading-number pattern
extracts 5. -/
theorem find_chapter_resolved_cex :
    findChapterLoop ["5: Ch.3"] ⟨5, 0⟩ = some "5: Ch.3" ∧
    parseChapterNumber "5: Ch.3" = some ⟨3, 0⟩ ∧
    Decimal.eqv ⟨3, 0⟩ ⟨5, 0⟩ = false := by
  decide

/-- C7 (amended): the lookup returns the first entry, in source list
order, for which SOME of the three patterns (tried in order, not stopping
at the first matching pattern unless its number compares equal) extracts
a number equal to the requested one; it returns not-found exactly when no
entry has any pattern-extracted number equal to the requested one.  This
may differ from the entry's first-pattern-wins resolved number.  On
titles ["Ch.1","Ch.2","Ch.3"], requesting 2 yields the second entry and
requesting 5 yields not-found. -/
theorem find_chapter_loop (titles : List String) (req : Decimal) :
    (∀ t, findChapterLoop titles req = some t →
      titleMatchesRequested t.data req = true ∧
      ∃ pre post, titles = pre ++ t :: post ∧
        ∀ u ∈ pre, titleMatchesRequested u.data req = false) ∧
    (findChapterLoop titles req = none ↔
      ∀ t ∈ titles, titleMatchesRequested t.data req = false) ∧
    findChapterLoop ["Ch.1", "Ch.2", "Ch.3"] ⟨2, 0⟩ = some "Ch.2" ∧
    findChapterLoop ["Ch.1", "Ch.2", "Ch.3"] ⟨5, 0⟩ = none := by
  refine ⟨?_, ?_, by decide, by decide⟩
  · intro t h
    exact find?_first _ titles t h
  · simp [findChapterLoop, List.find?_eq_none]

/-- Witness for C7's first conjunct at the spec's example: requesting 2
on ["Ch.1","Ch.2","Ch.3"] returns "Ch.2", which matches and is preceded
only by non-matching entries. -/
theorem find_chapter_loop_witness :
    titleMatchesRequested "Ch.2".data ⟨2, 0⟩ = true ∧
    ∃ pre post, ["Ch.1", "Ch.2", "Ch.3"] = pre ++ "Ch.2" :: post ∧
      ∀ u ∈ pre, titleMatchesRequested u.data ⟨2, 0⟩ = false :=
  (find_chapter_loop ["Ch.1", "Ch.2", "Ch.3"] ⟨2, 0⟩).1 "Ch.2" (by decide)

/-! Lemmas about the run_test counters -/

theorem errorEntryCount_appendError :
    ∀ (errors : List (String × List MangaRef)) (reason : String)
      (m : MangaRef),
      errorEntryCount (appendError errors reason m) =
        errorEntryCount errors + 1
  | [], reason, m => by simp [appendError, errorEntryCount]
  | (r, ms) :: rest, reason, m => by
    by_cases h : r = reason
    · simp [appendError, h, errorEntryCount]
      omega
    · simp only [appendError, h, if_false, if_neg, errorEntryCount,
        List.map_cons, List.sum_cons]
      have := errorEntryCount_appendError rest reason m
      simp only [errorEntryCount] at this
      omega

theorem runTestFold_inv :
    ∀ (tests : List (MangaRef × TestOutcome)) (res : Results),
      res.total = res.success + res.failed →
      res.zero_chapters ≤ res.failed →
      errorEntryCount res.errors = res.failed →
      ((tests.foldl (fun r p => recordResult r p.1 p.2) res).total =
        (tests.foldl (fun r p => recordResult r p.1 p.2) res).success +
          (tests.foldl (fun r p => recordResult r p.1 p.2) res).failed) ∧
      (tests.foldl (fun r p => recordResult r p.1 p.2) res).zero_chapters ≤
        (tests.foldl (fun r p => recordResult r p.1 p.2) res).failed ∧
      errorEntryCount
          (tests.foldl (fun r p => recordResult r p.1 p.2) res).errors =
        (tests.foldl (fun r p => recordResult r p.1 p.2) res).failed ∧
      (tests.foldl (fun r p => recordResult r p.1 p.2) res).total =
        res.total + tests.length
  | [], res, h1, h2, h3 => by simp [h1, h2, h3]
  | (m, o) :: tests, res, h1, h2, h3 => by
    simp only [List.foldl_cons]
    have step := runTestFold_inv tests (recordResult res m o) ?ha ?hb ?hc
    case ha =>
      by_cases ho : o.success <;>
        by_cases hz : o.error_reason = "Zero chapters returned" <;>
          simp [recordResult, ho, hz] <;> omega
    case hb =>
      by_cases ho : o.success <;>
        by_cases hz : o.error_reason = "Zero chapters returned" <;>
          simp [recordResult, ho, hz] <;> omega
    case hc =>
      by_cases ho : o.success <;>
        by_cases hz : o.error_reason = "Zero chapters returned" <;>
          simp [recordResult, ho, hz, errorEntryCount_appendError, h3]
    refine ⟨step.1, step.2.1, step.2.2.1, ?_⟩
    rw [step.2.2.2]
    have htot : (recordResult res m o).total = res.total + 1 := by
      by_cases ho : o.success <;>
        by_cases hz : o.error_reason = "Zero chapters returned" <;>
          simp [recordResult, ho, hz]
    rw [htot]
    simp
    omega

/-! Claim theorem: run_test counters -/

/-- C10: after any sequence of per-manga test outcomes is folded through
`run_test`'s result updates, the counters satisfy
`total = success + failed`, `zero_chapters ≤ failed`, and the number of
entries across all per-error lists equals `failed`; moreover `total`
equals the number of processed manga, so every tested manga is counted
in exactly one of success or failed.  Since every prefix of a run is
itself such a sequence, the invariant holds after each manga is
processed. -/
theorem run_test_counters (tests : List (MangaRef × TestOutcome)) :
    (runTestResults tests).total =
      (runTestResults tests).success + (runTestResults tests).failed ∧
    (runTestResults tests).zero_chapters ≤ (runTestResults tests).failed ∧
    errorEntryCount (runTestResults tests).errors =
      (runTestResults tests).failed ∧
    (runTestResults tests).total = tests.length := by
  have h := runTestFold_inv tests initResults rfl (Nat.le_refl 0) rfl
  simpa [runTestResults, initResults] using h

end Haruneko
